import Mathlib

/-!
Verification of the closing-agent workflow system: a shallow embedding of
the checklist deriver, workflow rank table, retry/verify storage executors,
APS-extraction transaction update, inbound-email processing, the
requisition draft builders and the automation / approval endpoints,
together with theorems settling the specification claims.

JavaScript semantics conventions used throughout:
- a nullable string field is `Option String`; JS truthiness of such a
  field (`!!x`, `x ? a : b`, `x || y`) treats both `null`/`undefined`
  and the empty string as falsy, captured by `jsTruthy`;
- a JSON object field is `Option _`; an object is always truthy in JS
  (even when empty), captured by `Option.isSome`;
- JS `??` (nullish coalescing) on nullable strings is `Option.orElse`
  (an empty string is kept, unlike `||`).
-/

namespace ClosingAgent

/-- JS truthiness of a nullable string: `null`/`undefined` and `""` are falsy. -/
def jsTruthy : Option String → Bool
  | none => false
  | some s => s ≠ ""

/-- JS `a || b` on a nullable string with a string default. -/
def jsOrStr (a : Option String) (b : String) : String :=
  match a with
  | some s => if s = "" then b else s
  | none => b

/-- Whitespace as matched by JS `trim` / `\s` (ASCII part). -/
def isWsChar (c : Char) : Bool :=
  c = ' ' || c = '\t' || c = '\n' || c = '\r' || c = '\x0b' || c = '\x0c'

/-- Trim leading and trailing whitespace from a character list. -/
def trimChars (l : List Char) : List Char :=
  ((l.dropWhile isWsChar).reverse.dropWhile isWsChar).reverse

/-- JS `String.prototype.trim`, modelled on the character list. -/
def jsTrim (s : String) : String :=
  ⟨trimChars s.data⟩

/-- Is `needle` a contiguous substring of `hay` (JS `String.prototype.includes`)? -/
def listContainsSeq (needle : List Char) : List Char → Bool
  | [] => needle.isEmpty
  | c :: rest => needle.isPrefixOf (c :: rest) || listContainsSeq needle rest

/-- JS `hay.includes(needle)`. -/
def strIncludes (hay needle : String) : Bool :=
  listContainsSeq needle.data hay.data

/-- ASCII lower-casing of one character (JS `toLowerCase` on the ASCII range). -/
def lowerChar (c : Char) : Char :=
  if 'A' ≤ c ∧ c ≤ 'Z' then Char.ofNat (c.toNat + 32) else c

/-- JS `String.prototype.toLowerCase` (ASCII range). -/
def jsToLower (s : String) : String :=
  ⟨s.data.map lowerChar⟩

/-! ## Workflow rank table (src/app/dashboard/transactions/new/page.tsx) -/

/-- The `workflowRank` record literal: workflow-status string to integer rank. -/
def workflowRankTable : List (String × Nat) :=
  [("TRANSACTION_CREATED", 10),
   ("APS_UPLOADED", 20),
   ("APS_EXTRACTED", 30),
   ("APS_EXTRACTED_AWAITING_EMAIL", 31),
   ("CLIENT_INTAKE_READY", 40),
   ("CLIENT_INTAKE_COMPLETED", 50),
   ("TITLE_SEARCH_RECEIVED", 60),
   ("REQUISITION_DRAFT_READY", 70),
   ("REQUISITION_SENT_TO_LAWYER", 80),
   ("REQUISITION_APPROVED", 90),
   ("REQUISITION_SENT_TO_VENDOR", 100),
   ("CLOSED", 999)]

/-- Table lookup `workflowRank[s]` (absent key gives `none` / JS `undefined`). -/
def workflowRank (s : String) : Option Nat :=
  (workflowRankTable.find? (fun p => p.1 = s)).map (·.2)

/-- `workflowRank[String(tx?.workflow_status || "")] ?? 0`. -/
def currentRank (workflowStatus : String) : Nat :=
  (workflowRank workflowStatus).getD 0

/-- `atLeast(status)`: the transaction's current rank reaches the target rank. -/
def atLeast (workflowStatus target : String) : Bool :=
  currentRank workflowStatus ≥ (workflowRank target).getD 0

/-! ## Data model (section 3 of the design: Transaction, Document, title-search data) -/

/-- Checklist step status. -/
inductive StepStatus where
  | DONE
  | PENDING
  | BLOCKED
deriving DecidableEq, Repr

/-- One checklist row: key, label, status, optional detail text. -/
structure ChecklistRow where
  key : String
  label : String
  status : StepStatus
  detail : Option String
deriving DecidableEq, Repr

/-- Validated APS extraction payload (src/lib/aps-schema.ts `APSData`). -/
structure APSData where
  purchaser_names : List String
  vendor_names : List String
  property_address : Option String
  purchase_price : Option Int
  deposit_amount : Option Int
  completion_date : Option String
  requisition_date : Option String
  chattels_included : List String
  fixtures_excluded : List String
  rental_items : List String
  hst_included : Option Bool
  commission_percentage : Option Int
  closing_adjustments : List String
  conditions : List String
  irrevocability_date : Option String
deriving DecidableEq, Repr

/-- One uploaded document row. -/
structure Doc where
  id : String
  transaction_id : Option String
  type : String
  status : String
  storage_url : Option String
  extracted_json : Option APSData
deriving DecidableEq, Repr

/-- The `title_search_data` JSON persisted by the inbound-email handler:
LLM title facts spread together with lawyer additions/flags and provenance. -/
structure TitleSearchData where
  pin_count : Option Int
  writs_clear : Option Bool
  mortgages_present : Option Bool
  easements_or_restrictions_noted : Option Bool
  tax_arrears_noted : Option Bool
  notes : List String
  lawyer_additions : List String
  lawyer_flags : List String
  source_inbox_email_id : Option Nat
  source_from_email : Option String
  derived_lawyer_email : Option String
  updated_at : Option String
deriving DecidableEq, Repr

/-- A transaction row. Nullable text columns are `Option String`; JSON object
columns are `Option _` (a present object is always truthy in JS, even empty);
`incoming_docs` keeps, per category key, the truthiness of `.received`. -/
structure Tx where
  id : String
  user_id : Option String
  file_number : String
  status : String
  workflow_status : String
  client_name : Option String
  client_email : Option String
  lawyer_email : Option String
  vendor_solicitor_email : Option String
  property_address : Option String
  property_type : Option String
  requires_status_cert : Bool
  closing_date : Option String
  client_intake_data : Option (List (String × String))
  client_intake_completed_at : Option String
  title_search_data : Option TitleSearchData
  title_search_received_at : Option String
  requisition_letter_draft : Option String
  requisition_letter_draft_html : Option String
  requisition_letter_generated_at : Option String
  requisition_approved_at : Option String
  requisition_sent_to_vendor_at : Option String
  incoming_docs : Option (List (String × Bool))
  incoming_docs_updated_at : Option String
deriving DecidableEq, Repr

/-! ## Checklist deriver (src/app/dashboard/transactions/new/page.tsx `deriveChecklist`) -/

/-- The 13 incoming-document categories (key, label) rendered after send-to-vendor. -/
def incomingDocRowDefs : List (String × String) :=
  [("reply_to_requisitions", "Reply to requisitions"),
   ("statement_of_adjustments", "Statement of Adjustments"),
   ("closing_documents", "Closing documents"),
   ("hst", "HST"),
   ("stat_dec_residency", "Statutory Declaration – residency"),
   ("stat_dec_spousal", "Statutory Declaration – spousal status"),
   ("undertakings", "Undertakings"),
   ("uff_warranty", "UFF Warranty"),
   ("bill_of_sale", "Bill of Sale"),
   ("doc_registration_agreement", "Document registration agreement"),
   ("signature_required", "Signature required"),
   ("lawyers_undertaking_vendor_mortgage", "Lawyer\x27s Undertaking – vendor mortgage"),
   ("payout_statement_mortgage", "Payout statement of mortgage")]

/-- Truthiness of `incoming_docs[k].received`. -/
def incomingReceived (incoming : Option (List (String × Bool))) (k : String) : Bool :=
  match incoming with
  | none => false
  | some m => ((m.find? (fun p => p.1 == k)).map (·.2)).getD false

/-- The checklist deriver: pure function of the transaction row and its documents. -/
def deriveChecklist (tx : Tx) (docs : List Doc) : List ChecklistRow :=
  let apsDocs := docs.filter (fun d => d.type == "APS")
  let apsUploaded := apsDocs.length > 0
  let apsExtracted := apsDocs.any (fun d => d.status == "EXTRACTED" || d.extracted_json.isSome)
  let hasEmail := jsTruthy tx.client_email
  let intakeDone := jsTruthy tx.client_intake_completed_at || tx.client_intake_data.isSome
  let titleSearchDone := jsTruthy tx.title_search_received_at || tx.title_search_data.isSome
  let reqDraftDone := jsTruthy tx.requisition_letter_draft ||
    jsTruthy tx.requisition_letter_draft_html || jsTruthy tx.requisition_letter_generated_at
  let requiresStatusCert := tx.requires_status_cert
  let reqSentToVendor := tx.workflow_status == "REQUISITION_SENT_TO_VENDOR" ||
    jsTruthy tx.requisition_sent_to_vendor_at
  let al := atLeast tx.workflow_status
  let rows : List ChecklistRow :=
    [⟨"created", "Transaction created", .DONE, none⟩,
     ⟨"aps_uploaded", "APS uploaded", if apsUploaded then .DONE else .PENDING, none⟩,
     ⟨"aps_extracted", "APS extracted",
        if apsExtracted then .DONE else if apsUploaded then .PENDING else .BLOCKED,
        if !apsUploaded then some "Upload APS first" else none⟩,
     ⟨"email", "Client email on file", if hasEmail then .DONE else .PENDING, none⟩,
     ⟨"intake", "Client intake completed",
        if intakeDone then .DONE else if hasEmail then .PENDING else .BLOCKED,
        if !hasEmail && !intakeDone then some "Add client email to send intake" else none⟩,
     ⟨"title_search", "Title search received",
        if titleSearchDone then .DONE else .PENDING, none⟩,
     ⟨"req_draft", "Requisition letter drafted",
        if reqDraftDone || al "REQUISITION_DRAFT_READY" then .DONE
        else if titleSearchDone then .PENDING else .BLOCKED,
        if !titleSearchDone && !reqDraftDone then some "Await title search details" else none⟩,
     ⟨"req_sent_lawyer", "Requisition sent to lawyer for approval",
        if al "REQUISITION_SENT_TO_LAWYER" || al "REQUISITION_APPROVED" ||
            al "REQUISITION_SENT_TO_VENDOR" then .DONE
        else if reqDraftDone then .PENDING else .BLOCKED,
        if !reqDraftDone then some "Generate requisition draft first" else none⟩,
     ⟨"req_approved", "Requisition approved by lawyer",
        if al "REQUISITION_APPROVED" || al "REQUISITION_SENT_TO_VENDOR" then .DONE
        else if al "REQUISITION_SENT_TO_LAWYER" then .PENDING else .BLOCKED,
        if !(al "REQUISITION_SENT_TO_LAWYER") then some "Send to lawyer first" else none⟩,
     ⟨"req_sent_vendor", "Requisition sent to vendor solicitor",
        if al "REQUISITION_SENT_TO_VENDOR" then .DONE
        else if al "REQUISITION_APPROVED" then .PENDING else .BLOCKED,
        if !(al "REQUISITION_APPROVED") then some "Await lawyer approval first" else none⟩]
  let statusCertRows : List ChecklistRow :=
    if requiresStatusCert then
      [⟨"status_cert", "Status certificate required", .PENDING,
        some "Upload & review status certificate"⟩]
    else []
  let incomingRows : List ChecklistRow :=
    if reqSentToVendor then
      ⟨"incoming_docs_header", "Incoming docs (pre-closing)", .PENDING,
       some "Auto-tracked from vendor solicitor emails"⟩ ::
      incomingDocRowDefs.map (fun d =>
        let received := incomingReceived tx.incoming_docs d.1
        ⟨"incoming_" ++ d.1, d.2, if received then .DONE else .PENDING,
         if received then some "Received via inbound email" else none⟩)
    else []
  rows ++ statusCertRows ++ incomingRows

/-! ## Condo heuristic and APS-extraction transaction update (extract-aps route) -/

/-- Match of the regex `\d+\s*-\s*\d+` anchored at the head of a character list.
Because the digit, whitespace and hyphen classes are disjoint, maximal munch
agrees with backtracking regex semantics. -/
def unitDashAt : List Char → Bool
  | [] => false
  | c :: rest =>
    c.isDigit &&
      (let afterWs := (rest.dropWhile Char.isDigit).dropWhile isWsChar
       match afterWs with
       | '-' :: r =>
         match r.dropWhile isWsChar with
         | d :: _ => d.isDigit
         | [] => false
       | _ => false)

/-- Unanchored test of `/\d+\s*-\s*\d+/` over a string. -/
def hasUnitDashPattern (s : String) : Bool :=
  s.data.tails.any unitDashAt

/-- The condo-detection heuristic `looksLikeCondoFromAddress`. -/
def looksLikeCondoFromAddress (addr : Option String) : Bool :=
  match addr with
  | none => false
  | some s =>
    if s = "" then false
    else
      let a := jsToLower s
      strIncludes a "condo" || strIncludes a "condominium" ||
      strIncludes a "unit " || strIncludes a "suite " ||
      strIncludes a "apt " || strIncludes a "apartment" ||
      hasUnitDashPattern a

/-- The transaction-summary fields written after a successful APS extraction. -/
structure ExtractTxUpdate where
  client_name : Option String
  property_address : Option String
  closing_date : Option String
  property_type : String
  requires_status_cert : Bool
  workflow_status : String
deriving DecidableEq, Repr

/-- The transaction summary row the extract-aps route re-reads before updating. -/
structure TxSummaryRow where
  client_email : Option String
  client_name : Option String
  property_address : Option String
  closing_date : Option String
deriving DecidableEq, Repr

/-- The `txUpdate` object built by the extract-aps route (step 6): summary
fields from the APS with nullish fallback to the re-read transaction, the
condo heuristic, and the success workflow status. -/
def extractApsTxUpdate (aps : APSData) (tx : Option TxSummaryRow) : ExtractTxUpdate :=
  let looksLikeCondo := looksLikeCondoFromAddress aps.property_address
  { client_name := (aps.purchaser_names.head?).orElse (fun _ => tx.bind (·.client_name))
    property_address := (aps.property_address).orElse (fun _ => tx.bind (·.property_address))
    closing_date := (aps.completion_date).orElse (fun _ => tx.bind (·.closing_date))
    property_type := if looksLikeCondo then "CONDO" else "FREEHOLD"
    requires_status_cert := looksLikeCondo
    workflow_status :=
      if jsTruthy (tx.bind (·.client_email)) then "CLIENT_INTAKE_READY"
      else "APS_EXTRACTED_AWAITING_EMAIL" }

/-- Effect of the extract-aps `transactions` update on a transaction row. -/
def applyExtractTxUpdate (u : ExtractTxUpdate) (t : Tx) : Tx :=
  { t with
    client_name := u.client_name
    property_address := u.property_address
    closing_date := u.closing_date
    property_type := some u.property_type
    requires_status_cert := u.requires_status_cert
    workflow_status := u.workflow_status }

/-! ## Retry/verify executors (extract-aps route, intake submit route, inbound handler) -/

/-- Result shape of the retry/verify executors (`ok`, optional `verified` flag,
optional error string). -/
structure RetryOutcome where
  ok : Bool
  verified : Bool
  error : Option String
deriving DecidableEq, Repr

/-- The bounded retry loop over the listed attempt outcomes (`none` = the
write returned without error, `some e` = it errored), threading the error of
the most recent failed attempt. Returns `none` when some attempt succeeded,
otherwise `some lastErr`. -/
def retryLoop : List (Option String) → Option String → Option (Option String)
  | [], lastErr => some lastErr
  | none :: _, _ => none
  | some e :: rest, _ => retryLoop rest (some e)

/-- Run the retry loop with no prior error. -/
def runRetries (attempts : List (Option String)) : Option (Option String) :=
  retryLoop attempts none

/-- The columns re-read by `updateDocumentWithRetry`'s verification query. -/
structure DocVerifyRow where
  status : String
  extracted_json : Option APSData
deriving DecidableEq, Repr

/-- `updateDocumentWithRetry`: retry the document update; when every attempt
failed, re-fetch the document and report verified success exactly when the
re-read row has `status = EXTRACTED` and a non-null `extracted_json` and the
re-read itself did not error. -/
def updateDocumentWithRetry (attempts : List (Option String))
    (verifyRow : Option DocVerifyRow) (verifyErr : Option String) : RetryOutcome :=
  match runRetries attempts with
  | none => ⟨true, false, none⟩
  | some lastErr =>
    let verified :=
      (match verifyRow with
       | some v => v.status == "EXTRACTED" && v.extracted_json.isSome
       | none => false) && verifyErr.isNone
    if verified then ⟨true, true, none⟩
    else ⟨false, false, some (jsOrStr lastErr (jsOrStr verifyErr "Unknown error"))⟩

/-- The columns re-read by `updateTransactionWithRetry`'s verification query. -/
structure TxVerifyRow where
  workflow_status : String
  property_address : Option String
  closing_date : Option String
  requires_status_cert : Bool
deriving DecidableEq, Repr

/-- `updateTransactionWithRetry`: same retry loop; the read-back is the
source's loose verify (`!!verify && !vErr`) — it only checks that the row
could be re-fetched, not that any intended field value is present. -/
def updateTransactionWithRetry (attempts : List (Option String))
    (verifyRow : Option TxVerifyRow) (verifyErr : Option String) : RetryOutcome :=
  match runRetries attempts with
  | none => ⟨true, false, none⟩
  | some lastErr =>
    let verified := verifyRow.isSome && verifyErr.isNone
    if verified then ⟨true, true, none⟩
    else ⟨false, false, some (jsOrStr lastErr (jsOrStr verifyErr "Unknown error"))⟩

/-- Columns re-read by the intake submit route's verification query. -/
structure IntakeVerifyRow where
  workflow_status : String
  client_intake_completed_at : Option String
  client_intake_data : Option (List (String × String))
deriving DecidableEq, Repr

/-- `looksLikeIntakeSaved`: the re-read row has a completed-at stamp and a
non-empty intake-data object. -/
def looksLikeIntakeSaved (tx : Option IntakeVerifyRow) : Bool :=
  match tx with
  | none => false
  | some t =>
    jsTruthy t.client_intake_completed_at &&
    (match t.client_intake_data with
     | some obj => decide (0 < obj.length)
     | none => false)

/-- Response of the intake submit endpoint. -/
structure IntakeResponse where
  ok : Bool
  message : String
deriving DecidableEq, Repr

/-- The intake submit route, parameterized over the storage outcomes: `saveErr`
is the final outcome of the retried save (`none` = saved), and
`verifyErr`/`verifyRow` the outcome of the retried read-back, consulted only
when the save errored. -/
def intakeSubmit (saveErr : Option String) (verifyErr : Option String)
    (verifyRow : Option IntakeVerifyRow) : IntakeResponse :=
  match saveErr with
  | none => ⟨true, "Intake saved"⟩
  | some _e =>
    if verifyErr.isNone && looksLikeIntakeSaved verifyRow then
      ⟨true, "Intake saved (verified after transient error)"⟩
    else
      ⟨false, "Failed to save intake"⟩

/-- Columns re-read by the inbound-email handler's verification (step 6). -/
structure TitleVerifyRow where
  title_search_received_at : Option String
  title_search_data : Option TitleSearchData
  workflow_status : String
  requisition_letter_draft : Option String
deriving DecidableEq, Repr

/-- `looksSaved` in the inbound-email handler: received-at stamp present,
title-search data present, and workflow status is TITLE_SEARCH_RECEIVED. -/
def titleSearchLooksSaved (v : Option TitleVerifyRow) : Bool :=
  match v with
  | none => false
  | some t =>
    jsTruthy t.title_search_received_at && t.title_search_data.isSome &&
    t.workflow_status == "TITLE_SEARCH_RECEIVED"

/-! ## Requisition letter builders (src/lib/requisition-text.ts, src/lib/requisition-html.ts) -/

/-- `s(v)` of the text builder: render a nullable value (`null` becomes `""`). -/
def sOf (v : Option String) : String := v.getD ""

/-- `safeLines` (text builder) and `safeList` (HTML builder) are the same
function: keep the entries whose trim is non-empty, trimmed. -/
def safeLines (items : List String) : List String :=
  (items.filter (fun x => jsTrim x != "")).map jsTrim

/-- The fixed base requisitions of the plain-text builder. -/
def baseRequisitionsText : List String :=
  ["Please provide a draft Transfer/Deed for approval prior to registration.",
   "Please provide the Statement of Adjustments in advance of closing for review and approval.",
   "Please confirm keys/fobs will be made available on completion."]

/-- Numbering loop of `wrapNumbered`: prefix each line with its number,
counting up from `startAt`. -/
def numberLines (startAt : Nat) : List String → List String
  | [] => []
  | l :: ls => (Nat.repr startAt ++ ". " ++ l) :: numberLines (startAt + 1) ls

/-- `wrapNumbered(lines, startAt)`. -/
def wrapNumbered (lines : List String) (startAt : Nat) : String :=
  String.intercalate "\n" (numberLines startAt lines)

/-- Firm profile row (`profiles` table columns used by the builders). -/
structure Profile where
  full_name : Option String
  firm_name : Option String
  email : Option String
  phone : Option String
  address_line : Option String
deriving DecidableEq, Repr

/-- The clause list assembled by the text builder: the fixed base set followed
by the appended free-text items. -/
def textRequisitionList (appended : List String) : List String :=
  baseRequisitionsText ++ safeLines appended

/-- `buildRequisitionText`. The letter date is impure in the source
(`new Date().toLocaleDateString`), so it is passed in as `todayStr`. -/
def buildRequisitionText (transaction : Option Tx) (profile : Option Profile)
    (appended : List String) (todayStr : String) : String :=
  let firmName := jsTrim (sOf (profile.bind (·.firm_name)))
  let firmLawyer := jsTrim (sOf (profile.bind (·.full_name)))
  let firmEmail := jsTrim (sOf (profile.bind (·.email)))
  let firmPhone := jsTrim (sOf (profile.bind (·.phone)))
  let firmAddress := jsTrim (sOf (profile.bind (·.address_line)))
  let fileNo := jsTrim (sOf (transaction.map (·.file_number)))
  let clientName := jsTrim (sOf (transaction.bind (·.client_name)))
  let property := jsTrim (sOf (transaction.bind (·.property_address)))
  let closing := jsTrim (sOf (transaction.bind (·.closing_date)))
  let vendorSolicitorLine := "Vendor’s Solicitor"
  let headerLines :=
    ([if firmName ≠ "" then firmName else "Law Office",
      firmAddress,
      if firmPhone ≠ "" then "Tel: " ++ firmPhone else "",
      if firmEmail ≠ "" then "Email: " ++ firmEmail else ""]).filter (fun x => x != "")
  let allRequisitions := textRequisitionList appended
  let requisitionsBlock :=
    if allRequisitions.length > 0 then wrapNumbered allRequisitions 1 else ""
  let signName :=
    if firmLawyer ≠ "" then firmLawyer
    else if firmName ≠ "" then firmName else "Solicitor"
  jsTrim ("\n" ++ String.intercalate "\n" headerLines ++ "\n\n" ++ todayStr ++ "\n\n" ++
    vendorSolicitorLine ++ "\n\nRe: Purchase of " ++
    (if property ≠ "" then property else "[PROPERTY ADDRESS]") ++
    "\nOur Client: " ++ (if clientName ≠ "" then clientName else "[CLIENT NAME]") ++
    "\nClosing Date: " ++ (if closing ≠ "" then closing else "[CLOSING DATE]") ++
    "\nFile No.: " ++ (if fileNo ≠ "" then fileNo else "[FILE NUMBER]") ++
    "\n\nWe enclose/attach our requisitions and request your replies within the applicable requisition period. Please govern yourself accordingly." ++
    "\n\nRequisitions:\n" ++ requisitionsBlock ++
    "\n\nYours truly,\n\n" ++ signName ++ "\n" ++ firmName ++ "\n")

/-- One-character step of `esc`. The source chains global replaces of
`&`, `<`, `>`, `"`; since the replacement texts contain no later-replaced
characters, the chain equals this character-wise map. -/
def escChar (c : Char) : String :=
  if c = '&' then "&amp;"
  else if c = '<' then "&lt;"
  else if c = '>' then "&gt;"
  else if c = '"' then "&quot;"
  else String.singleton c

/-- `esc`: minimal HTML escaping of the HTML builder. -/
def esc (s : String) : String :=
  String.join (s.data.map escChar)

/-- The fixed base requisitions of the HTML builder (wording differs slightly
from the text builder's base set). -/
def baseRequisitionsHtml : List String :=
  ["Please provide a draft transfer/deed for approval prior to registration.",
   "Please provide the statement of adjustments in advance of closing for review and approval.",
   "Please confirm the keys/fobs will be made available on completion."]

/-- The `blended` clause list of the HTML builder: base set then appended items. -/
def htmlRequisitionList (appended : List String) : List String :=
  baseRequisitionsHtml ++ safeLines appended

/-- The `requisitionsHtml` fragment: an ordered list of the blended clauses. -/
def requisitionsHtmlBlock (blended : List String) : String :=
  "\n    <ol style=\"margin:0;padding-left:20px;\">\n      " ++
  String.join (blended.map (fun r => "<li style=\"margin:6px 0;\">" ++ esc r ++ "</li>")) ++
  "\n    </ol>\n  "

/-- `buildRequisitionHtml`: the email-safe HTML rendering, built from the
transaction, firm profile, title-search data and appended clauses. -/
def buildRequisitionHtml (transaction : Option Tx) (profile : Option Profile)
    (title : Option TitleSearchData) (appended : List String) : String :=
  let firmName := sOf (profile.bind (·.firm_name))
  let firmLawyer := sOf (profile.bind (·.full_name))
  let firmEmail := sOf (profile.bind (·.email))
  let firmPhone := sOf (profile.bind (·.phone))
  let firmAddress := sOf (profile.bind (·.address_line))
  let fileNo := sOf (transaction.map (·.file_number))
  let clientName := sOf (transaction.bind (·.client_name))
  let property := sOf (transaction.bind (·.property_address))
  let closing := sOf (transaction.bind (·.closing_date))
  let titleNotes := safeLines ((title.map (·.notes)).getD [])
  let lawyerFlags := safeLines ((title.map (·.lawyer_flags)).getD [])
  let blended := htmlRequisitionList appended
  let flagsHtml :=
    if 0 < lawyerFlags.length then
      "\n      <div style=\"margin-top:16px;padding:12px;border:1px solid #f0c36d;background:#fff7e6;\">\n        <div style=\"font-weight:700;margin-bottom:6px;\">Items flagged for clerk review</div>\n        <ul style=\"margin:0;padding-left:18px;\">\n          " ++
      String.join (lawyerFlags.map (fun f => "<li>" ++ esc f ++ "</li>")) ++
      "\n        </ul>\n      </div>\n    "
    else ""
  let titleSummaryHtml :=
    if 0 < titleNotes.length then
      "\n      <div style=\"margin-top:14px;\">\n        <div style=\"font-weight:700;margin-bottom:6px;\">Title Search Summary (from lawyer email)</div>\n        <ul style=\"margin:0;padding-left:18px;\">\n          " ++
      String.join (titleNotes.map (fun n => "<li>" ++ esc n ++ "</li>")) ++
      "\n        </ul>\n      </div>\n    "
    else ""
  let requisitionsHtml := requisitionsHtmlBlock blended
  jsTrim ("\n  <div style=\"font-family:Arial, Helvetica, sans-serif; font-size:14px; color:#111; line-height:1.35;\">\n    <div style=\"font-weight:700;font-size:16px;margin-bottom:6px;\">Requisition Letter</div>\n    <div style=\"margin-bottom:14px;\">\n      <div><strong>File No:</strong> " ++
    esc fileNo ++ "</div>\n      <div><strong>Client:</strong> " ++ esc clientName ++
    "</div>\n      <div><strong>Property:</strong> " ++ esc property ++
    "</div>\n      <div><strong>Closing Date:</strong> " ++ esc closing ++
    "</div>\n    </div>\n\n    <div style=\"margin-bottom:14px;\">\n      <div style=\"font-weight:700;margin-bottom:6px;\">Requisitions</div>\n      " ++
    requisitionsHtml ++ "\n    </div>\n\n    " ++ titleSummaryHtml ++ "\n    " ++ flagsHtml ++
    "\n\n    <div style=\"margin-top:18px;\">\n      <div>Yours truly,</div>\n      <div style=\"margin-top:10px;font-weight:700;\">" ++
    esc (if firmLawyer ≠ "" then firmLawyer else if firmName ≠ "" then firmName else "Solicitor") ++
    "</div>\n      " ++
    (if firmName ≠ "" then "<div>" ++ esc firmName ++ "</div>" else "") ++ "\n      " ++
    (if firmAddress ≠ "" then "<div>" ++ esc firmAddress ++ "</div>" else "") ++ "\n      " ++
    (if firmPhone ≠ "" then "<div>" ++ esc firmPhone ++ "</div>" else "") ++ "\n      " ++
    (if firmEmail ≠ "" then "<div>" ++ esc firmEmail ++ "</div>" else "") ++
    "\n    </div>\n  </div>\n  ")

/-! ## Persistence-layer store shared by the route handlers -/

/-- One received email row (`inbox_emails`). -/
structure InboxEmail where
  id : Nat
  provider_message_id : Option String
  to_email : Option String
  from_email : Option String
  subject : String
  body_text : Option String
  body_html : Option String
  status : String
  error : Option String
  transaction_id : Option String
deriving DecidableEq, Repr

/-- One approval link row (`approval_links`); `expires_at` in epoch milliseconds. -/
structure ApprovalLink where
  id : Nat
  transaction_id : String
  token_hash : String
  expires_at : Nat
  used_at : Option String
deriving DecidableEq, Repr

/-- One outbound-email audit row (`email_outbox`). -/
structure OutboxEmail where
  id : Nat
  transaction_id : String
  kind : String
  to_email : String
  subject : String
  status : String
  sent_at : Option String
  provider_message_id : Option String
  error : Option String
deriving DecidableEq, Repr

/-- One email actually handed to the transactional email sender. -/
structure SentEmail where
  to_email : String
  subject : String
  html : String
deriving DecidableEq, Repr

/-- The persistence layer visible to the modelled handlers. -/
structure Store where
  transactions : List Tx
  inbox : List InboxEmail
  approval_links : List ApprovalLink
  email_outbox : List OutboxEmail
  sent : List SentEmail
deriving DecidableEq, Repr

/-- Update the transaction rows matching `id` (supabase `.update().eq('id', id)`). -/
def updateTx (st : Store) (id : String) (f : Tx → Tx) : Store :=
  { st with transactions := st.transactions.map (fun t => if t.id == id then f t else t) }

/-- Update the inbox rows matching `id`. -/
def updateInbox (st : Store) (id : Nat) (f : InboxEmail → InboxEmail) : Store :=
  { st with inbox := st.inbox.map (fun e => if e.id == id then f e else e) }

/-- Update the approval-link rows matching `id`. -/
def updateLink (st : Store) (id : Nat) (f : ApprovalLink → ApprovalLink) : Store :=
  { st with approval_links := st.approval_links.map (fun l => if l.id == id then f l else l) }

/-- `maybeSingle` fetch of a transaction by id. -/
def findTx (st : Store) (id : String) : Option Tx :=
  st.transactions.find? (fun t => t.id == id)

/-- A generic handler response (HTTP body reduced to ok flag and message). -/
structure HandlerResponse where
  ok : Bool
  message : String
deriving DecidableEq, Repr

/-! ## Automation run endpoint (src/app/api/automations/run/route.ts) -/

/-- The automation guard `shouldGenerate`: title search received, title data
present, and no non-blank requisition draft yet. -/
def shouldGenerate (tx : Tx) : Bool :=
  tx.workflow_status == "TITLE_SEARCH_RECEIVED" &&
  tx.title_search_data.isSome &&
  (match tx.requisition_letter_draft with
   | none => true
   | some d => jsTrim d == "")

/-- Environment of one automation run: the loaded firm profile, the letter
date and wall clock, whether both RESEND env vars are configured, the base
URL, the minted token and its hash, fresh row ids, and the outcomes of the
fallible storage/send steps. -/
structure AutomationEnv where
  profile : Option Profile
  todayStr : String
  nowIso : String
  emailConfigOk : Bool
  baseUrl : String
  token : String
  tokenHash : String
  linkId : Nat
  outboxId : Nat
  expiresAt : Nat
  draftSaveErr : Option String
  sendErr : Option String
deriving DecidableEq, Repr

/-- The `appended` list computed by the automation route: the title-search
`notes` entries that are non-blank strings, followed by the non-blank
`lawyer_additions`. -/
def appendedOf (titleSearch : Option TitleSearchData) : List String :=
  ((titleSearch.map (·.notes)).getD []).filter (fun s => jsTrim s != "") ++
  ((titleSearch.map (·.lawyer_additions)).getD []).filter (fun s => jsTrim s != "")

/-- The draft-save update the automation route applies to the transaction
row ("Save BOTH html + text"). -/
def draftSaveUpdate (text html nowIso : String) (t : Tx) : Tx :=
  { t with
    requisition_letter_draft := some text
    requisition_letter_draft_html := some html
    requisition_letter_generated_at := some nowIso
    workflow_status := "REQUISITION_DRAFT_READY" }

/-- A workflow-status-only transaction update. -/
def setWorkflowStatus (S : String) (t : Tx) : Tx :=
  { t with workflow_status := S }

/-- The automations/run POST handler: guard check, draft generation from the
structured inputs, draft save, approval-link insert, then the guarded
outbound lawyer email with `email_outbox` bookkeeping and the final workflow
status for each branch. -/
def automationsRun (st : Store) (transactionId : String) (env : AutomationEnv) :
    Store × HandlerResponse :=
  match findTx st transactionId with
  | none => (st, ⟨false, "Transaction not found"⟩)
  | some tx =>
    if !(shouldGenerate tx) then (st, ⟨true, "No automation needed"⟩)
    else
      let titleSearch := tx.title_search_data
      let appended := appendedOf titleSearch
      let html := buildRequisitionHtml (some tx) env.profile titleSearch appended
      let text := buildRequisitionText (some tx) env.profile appended env.todayStr
      match env.draftSaveErr with
      | some _err => (st, ⟨false, "Failed to save requisition draft"⟩)
      | none =>
        let st1 := updateTx st tx.id (draftSaveUpdate text html env.nowIso)
        let st2 := { st1 with approval_links := st1.approval_links ++
          [⟨env.linkId, transactionId, env.tokenHash, env.expiresAt, none⟩] }
        if !env.emailConfigOk then
          (updateTx st2 transactionId
             (setWorkflowStatus "REQUISITION_DRAFT_READY_AWAITING_EMAIL_CONFIG"),
           ⟨true, "Draft generated; missing email config"⟩)
        else if !(jsTruthy tx.lawyer_email) then
          (updateTx st2 transactionId
             (setWorkflowStatus "REQUISITION_DRAFT_READY_AWAITING_LAWYER_EMAIL"),
           ⟨true, "Draft generated; missing lawyer email"⟩)
        else
          let lawyerEmail := tx.lawyer_email.getD ""
          let subject := "Lawyer Approval - " ++ tx.file_number
          let queuedRow : OutboxEmail :=
            ⟨env.outboxId, tx.id, "LAWYER_APPROVAL", lawyerEmail, subject, "QUEUED",
             none, none, none⟩
          let st3 : Store := { st2 with email_outbox := st2.email_outbox ++ [queuedRow] }
          let approveUrl := env.baseUrl ++ "/lawyer/approve/" ++ tx.id ++ "?token=" ++ env.token
          match env.sendErr with
          | none =>
            let approvalEmail : SentEmail :=
              ⟨lawyerEmail, subject,
               "\n      <p>Please review and approve:</p>\n      <p><a href=\"" ++ approveUrl ++
               "\" target=\"_blank\" rel=\"noopener noreferrer\">Review & approve</a></p>\n    "⟩
            let st4 : Store := { st3 with
              email_outbox := st3.email_outbox.map (fun o =>
                if o.id == env.outboxId then
                  { o with status := "SENT", sent_at := some env.nowIso, error := none }
                else o)
              sent := st3.sent ++ [approvalEmail] }
            (updateTx st4 transactionId (setWorkflowStatus "REQUISITION_SENT_TO_LAWYER"),
             ⟨true, "Draft generated and lawyer email sent/queued"⟩)
          | some e =>
            let st4 : Store := { st3 with email_outbox := st3.email_outbox.map (fun o =>
              if o.transaction_id == tx.id && o.kind == "LAWYER_APPROVAL" then
                { o with status := "FAILED", error := some e }
              else o) }
            (updateTx st4 transactionId
               (setWorkflowStatus "REQUISITION_DRAFT_READY_EMAIL_FAILED"),
             ⟨true, "Draft generated but lawyer email failed"⟩)

/-! ## Inbound email handler (receive-email route) -/

/-- Keyword classifier `detectIncomingDocs` over the lower-cased subject and
body (`t = subject + newline + body`). -/
def detectIncomingDocs (subject bodyText : String) : List String :=
  let t := jsToLower subject ++ "\n" ++ jsToLower bodyText
  let inc := fun (k : String) => strIncludes t k
  let hits : List String :=
    (if inc "reply to requisition" || inc "reply to req" || inc "replies to requisition" then
       ["reply_to_requisitions"] else []) ++
    (if inc "statement of adjustments" || (inc "soa" && inc "adjust") then
       ["statement_of_adjustments"] else []) ++
    (if inc "closing document" || inc "closing package" || inc "closing documents" then
       ["closing_documents"] else []) ++
    (if inc "hst" || inc "harmonized sales tax" then ["hst"] else []) ++
    (if inc "statutory declaration" &&
        (inc "resident" || inc "residency" || inc "non-resident" || inc "canada") then
       ["stat_dec_residency"] else []) ++
    (if inc "statutory declaration" && (inc "spousal" || inc "spouse" || inc "marital") then
       ["stat_dec_spousal"] else []) ++
    (if inc "undertaking" || inc "undertakings" then ["undertakings"] else []) ++
    (if inc "uff" && inc "warranty" then ["uff_warranty"] else []) ++
    (if inc "bill of sale" then ["bill_of_sale"] else []) ++
    (if inc "document registration agreement" || (inc "registration" && inc "agreement") then
       ["doc_registration_agreement"] else []) ++
    (if inc "signature required" || inc "sign here" || inc "please sign" then
       ["signature_required"] else []) ++
    (if inc "lawyer\x27s undertaking" && (inc "vendor mortgage" || inc "mortgage") then
       ["lawyers_undertaking_vendor_mortgage"] else []) ++
    (if inc "payout statement" && inc "mortgage" then ["payout_statement_mortgage"] else [])
  hits.eraseDups

/-- Set each detected category's `received` truthiness in the
`incoming_docs` map (update-or-insert per key). -/
def tickIncoming (incoming : List (String × Bool)) (keys : List String) :
    List (String × Bool) :=
  keys.foldl (fun acc k =>
    if acc.any (fun p => p.1 == k) then
      acc.map (fun p => if p.1 == k then (p.1, true) else p)
    else acc ++ [(k, true)]) incoming

/-- The inbound payload after the shape-tolerant field picking (`pickString`
chains over the provider's varying shapes) and the HTML-to-text fallback,
both of which happen before any storage access; the storage steps settled
here take these projected fields as input. -/
structure InboundPayload where
  providerMessageId : Option String
  subject : String
  toEmail : String
  fromEmail : String
  bodyHtml : String
  bodyText : String
deriving DecidableEq, Repr

/-- Environment of one inbound run: the upstream pure parses (file-number
token from the subject, derived lawyer email), the results of the two LLM
extraction passes, the wall clock, the id minted for the inserted inbox row,
and the outcomes of the fallible storage writes. -/
structure InboundEnv where
  fileNumber : Option String
  derivedLawyerEmail : Option String
  titlePinCount : Option Int
  titleWritsClear : Option Bool
  titleMortgagesPresent : Option Bool
  titleEasementsNoted : Option Bool
  titleTaxArrearsNoted : Option Bool
  titleNotes : List String
  lawyerAdditions : List String
  lawyerFlags : List String
  nowIso : String
  newEmailId : Nat
  insertErr : Option String
  stepAErr : Option String
  stepBErr : Option String
deriving DecidableEq, Repr

/-- Modelled from the spec: the `inbox_emails` storage enforces a unique
constraint on `provider_message_id` (the database schema itself is not under
src/; the spec states that a `provider_message_id` collision is treated as a
duplicate delivery). An insert whose non-null `provider_message_id` collides
fails with a "duplicate"-containing error message, which is what the route's
duplicate branch tests for; other transport failures come from `insertErr`. -/
def insertInboxEmail (st : Store) (p : InboundPayload) (env : InboundEnv) :
    Sum String (Store × Nat) :=
  let isDup :=
    match p.providerMessageId with
    | some m => st.inbox.any (fun e => e.provider_message_id == some m)
    | none => false
  if isDup then Sum.inl "duplicate key value violates unique constraint"
  else
    match env.insertErr with
    | some e => Sum.inl e
    | none =>
      let row : InboxEmail :=
        ⟨env.newEmailId, p.providerMessageId,
         if p.toEmail == "" then none else some p.toEmail,
         if p.fromEmail == "" then none else some p.fromEmail,
         p.subject,
         if p.bodyText == "" then none else some p.bodyText,
         if p.bodyHtml == "" then none else some p.bodyHtml,
         "RECEIVED", none, none⟩
      Sum.inr ({ st with inbox := st.inbox ++ [row] }, env.newEmailId)

/-- Step A of the inbound handler: stamp the title-search arrival and the
workflow status on the matched transaction. -/
def stepAUpdate (nowIso : String) (t : Tx) : Tx :=
  { t with
    title_search_received_at := some nowIso
    workflow_status := "TITLE_SEARCH_RECEIVED" }

/-- Step B of the inbound handler: persist the assembled title-search data. -/
def stepBUpdate (tsd : TitleSearchData) (t : Tx) : Tx :=
  { t with title_search_data := some tsd }

/-- The inbound-email webhook handler: durable insert first, duplicate
success-no-op, file-number match, incoming-docs auto-tick, lawyer-email
first-write-wins, title-search step A and step B writes, read-back
verification, and the final inbox status. The fire-and-forget automation
trigger is dispatched after the verified save and never affects this
handler's state or response, so it is not part of this function's result. -/
def processInboundEmail (st : Store) (p : InboundPayload) (env : InboundEnv) :
    Store × HandlerResponse :=
  match insertInboxEmail st p env with
  | Sum.inl e =>
    if strIncludes (jsToLower e) "duplicate" then (st, ⟨true, "Duplicate ignored"⟩)
    else (st, ⟨false, "Failed to save inbound email"⟩)
  | Sum.inr (st1, emailId) =>
    match env.fileNumber with
    | none =>
      (updateInbox st1 emailId (fun e => { e with status := "UNASSIGNED" }),
       ⟨true, "Inbound email saved (no file number found)"⟩)
    | some fn =>
      match st1.transactions.find? (fun t => t.file_number == fn) with
      | none =>
        (updateInbox st1 emailId (fun e => { e with status := "UNASSIGNED" }),
         ⟨true, "Inbound email saved (no matching transaction)"⟩)
      | some tx =>
        let st2 := updateInbox st1 emailId (fun e =>
          { e with status := "MATCHED", transaction_id := some tx.id })
        let detected := detectIncomingDocs p.subject p.bodyText
        let st3 :=
          if 0 < detected.length then
            updateTx st2 tx.id (fun t =>
              { t with
                incoming_docs := some (tickIncoming ((t.incoming_docs).getD []) detected)
                incoming_docs_updated_at := some env.nowIso })
          else st2
        let st4 :=
          match env.derivedLawyerEmail with
          | some em =>
            match findTx st3 tx.id with
            | some cur =>
              if !(jsTruthy cur.lawyer_email) then
                updateTx st3 tx.id (fun t => { t with lawyer_email := some em })
              else st3
            | none => st3
          | none => st3
        match env.stepAErr with
        | some msg =>
          (updateInbox st4 emailId (fun e =>
             { e with status := "ERROR", error := some msg }),
           ⟨false, "Matched email but failed to update transaction (step A)"⟩)
        | none =>
          let st5 := updateTx st4 tx.id (stepAUpdate env.nowIso)
          let tsd : TitleSearchData :=
            { pin_count := env.titlePinCount
              writs_clear := env.titleWritsClear
              mortgages_present := env.titleMortgagesPresent
              easements_or_restrictions_noted := env.titleEasementsNoted
              tax_arrears_noted := env.titleTaxArrearsNoted
              notes := env.titleNotes
              lawyer_additions := env.lawyerAdditions
              lawyer_flags := env.lawyerFlags
              source_inbox_email_id := some emailId
              source_from_email := some p.fromEmail
              derived_lawyer_email := env.derivedLawyerEmail
              updated_at := some env.nowIso }
          match env.stepBErr with
          | some msg =>
            (updateInbox st5 emailId (fun e =>
               { e with status := "ERROR", error := some msg }),
             ⟨false, "Matched email but failed to update transaction (step B)"⟩)
          | none =>
            let st6 := updateTx st5 tx.id (stepBUpdate tsd)
            let verifyTx := findTx st6 tx.id
            let looksSaved :=
              match verifyTx with
              | some v =>
                jsTruthy v.title_search_received_at && v.title_search_data.isSome &&
                v.workflow_status == "TITLE_SEARCH_RECEIVED"
              | none => false
            if !looksSaved then
              (updateInbox st6 emailId (fun e =>
                 { e with status := "ERROR",
                          error := some "Verify failed: title search not persisted" }),
               ⟨false, "Inbound matched but verification failed (possible transient DB write issue)"⟩)
            else
              (updateInbox st6 emailId (fun e => { e with status := "PROCESSED" }),
               ⟨true, "Inbound email processed"⟩)

/-! ## Lawyer approval endpoint (src/app/api/lawyer/approve/route.ts) -/

/-- Environment of one approval call: the wall clock (ISO and epoch
milliseconds) and the outcome of the fallible content-save write. -/
structure ApprovalEnv where
  nowIso : String
  nowMs : Nat
  contentSaveErr : Option String
deriving DecidableEq, Repr

/-- The approval POST handler. `tokenHash` is the sha256 of the presented
token, computed before any storage access; link validity requires a matching
row that is unused and unexpired. The edited content is saved first; only
after that write succeeds is the link consumed (`used_at` set), the letter
emailed to the vendor solicitor and the status advanced. -/
def approvePost (st : Store) (transactionId tokenHash editedHtml : String)
    (env : ApprovalEnv) : Store × HandlerResponse :=
  match st.approval_links.find? (fun l =>
      l.transaction_id == transactionId && l.token_hash == tokenHash) with
  | none => (st, ⟨false, "Approval link is invalid or already used"⟩)
  | some link =>
    if link.used_at.isSome then (st, ⟨false, "Approval link is invalid or already used"⟩)
    else if link.expires_at < env.nowMs then (st, ⟨false, "Approval link expired"⟩)
    else
      match findTx st transactionId with
      | none => (st, ⟨false, "Transaction not found"⟩)
      | some tx =>
        if !(jsTruthy tx.vendor_solicitor_email) then
          (st, ⟨false, "Vendor solicitor email missing on transaction"⟩)
        else
          match env.contentSaveErr with
          | some _e => (st, ⟨false, "Failed to save approval"⟩)
          | none =>
            let st1 := updateTx st transactionId (fun t =>
              { t with
                requisition_letter_draft_html := some editedHtml
                requisition_approved_at := some env.nowIso
                workflow_status := "REQUISITION_APPROVED" })
            let st2 := updateLink st1 link.id (fun l => { l with used_at := some env.nowIso })
            let subject := "Requisitions - " ++ jsOrStr (some tx.file_number) tx.id
            let st3 := { st2 with sent := st2.sent ++
              [⟨tx.vendor_solicitor_email.getD "", subject, editedHtml⟩] }
            let st4 := updateTx st3 transactionId (fun t =>
              { t with workflow_status := "REQUISITION_SENT_TO_VENDOR" })
            (st4, ⟨true, "Approved and sent to vendor solicitor"⟩)

/-! ## Generic lemmas about the embedded operations -/

/-- The numbering loop preserves length. -/
theorem numberLines_length (startAt : Nat) (lines : List String) :
    (numberLines startAt lines).length = lines.length := by
  induction lines generalizing startAt with
  | nil => rfl
  | cons l ls ih => simp [numberLines, ih]

/-- The `i`-th numbered line is the `i`-th clause prefixed with number `startAt + i`:
the numbering is contiguous from `startAt` with no gaps or repeats. -/
theorem numberLines_get? (startAt : Nat) (lines : List String) (i : Nat) :
    (numberLines startAt lines).get? i =
      (lines.get? i).map (fun l => Nat.repr (startAt + i) ++ ". " ++ l) := by
  induction lines generalizing startAt i with
  | nil => simp [numberLines]
  | cons l ls ih =>
    cases i with
    | zero => simp [numberLines]
    | succ n =>
      simp only [numberLines, List.get?_cons_succ, ih (startAt + 1) n]
      have : startAt + 1 + n = startAt + (n + 1) := by omega
      rw [this]

/-- `safeLines` keeps a list of non-blank entries intact up to trimming. -/
theorem safeLines_of_nonblank (items : List String) (h : ∀ s ∈ items, jsTrim s ≠ "") :
    safeLines items = items.map jsTrim := by
  unfold safeLines
  have : items.filter (fun x => jsTrim x != "") = items := by
    refine List.filter_eq_self.mpr ?_
    intro a ha
    simpa using h a ha
  rw [this]

/-! ## Concrete sample records used by witnesses and counterexamples -/

/-- A freshly created transaction row with placeholder values. -/
def sampleTx : Tx :=
  { id := "tx-1"
    user_id := some "user-1"
    file_number := "AIC-2025-000123"
    status := "NEW"
    workflow_status := "TRANSACTION_CREATED"
    client_name := some "TBD"
    client_email := none
    lawyer_email := none
    vendor_solicitor_email := none
    property_address := some "TBD"
    property_type := none
    requires_status_cert := false
    closing_date := some "2025-12-01"
    client_intake_data := none
    client_intake_completed_at := none
    title_search_data := none
    title_search_received_at := none
    requisition_letter_draft := none
    requisition_letter_draft_html := none
    requisition_letter_generated_at := none
    requisition_approved_at := none
    requisition_sent_to_vendor_at := none
    incoming_docs := none
    incoming_docs_updated_at := none }

/-! ## Claim theorems -/

/-- C3: the workflow rank comparison is transitive (hence `atLeast` is
monotonic), CLOSED has the strictly highest rank in the table, and a CLOSED
transaction satisfies `atLeast` against every status in the table. -/
theorem workflow_rank_monotonic :
    (∀ a b c : String, currentRank a ≥ currentRank b → currentRank b ≥ currentRank c →
        currentRank a ≥ currentRank c) ∧
    (∀ p ∈ workflowRankTable, p.1 ≠ "CLOSED" → p.2 < currentRank "CLOSED") ∧
    (∀ p ∈ workflowRankTable, atLeast "CLOSED" p.1 = true) := by
  refine ⟨fun a b c h1 h2 => le_trans h2 h1, by decide, by decide⟩

/-- Witness for C3 at concrete statuses from the table. -/
theorem workflow_rank_monotonic_witness :
    currentRank "CLOSED" ≥ currentRank "TRANSACTION_CREATED" ∧
    10 < currentRank "CLOSED" ∧
    atLeast "CLOSED" "TRANSACTION_CREATED" = true :=
  ⟨workflow_rank_monotonic.1 "CLOSED" "TITLE_SEARCH_RECEIVED" "TRANSACTION_CREATED"
      (by decide) (by decide),
   workflow_rank_monotonic.2.1 ("TRANSACTION_CREATED", 10) (by decide) (by decide),
   workflow_rank_monotonic.2.2 ("TRANSACTION_CREATED", 10) (by decide)⟩

/-- C7: for every combination of `requires_status_cert` and vacant-tax
applicability and any list of appended non-blank notes, the requisition
letter's numbered clause list is contiguous `1..K` with no gaps, where
`K = (base clause count) + (active conditional clause count) + N`; the
builder defines no conditional clauses, so the active conditional count is
`0` for every combination, which the first conjunct records by showing the
letter does not depend on the two flags at all. -/
theorem requisition_numbering_contiguous
    (requiresStatusCert _vacantTaxApplicable : Bool)
    (tx : Tx) (profile : Option Profile) (todayStr : String)
    (appended : List String) (hN : ∀ s ∈ appended, jsTrim s ≠ "") :
    buildRequisitionText (some { tx with requires_status_cert := requiresStatusCert })
        profile appended todayStr =
      buildRequisitionText (some tx) profile appended todayStr ∧
    (textRequisitionList appended).length = baseRequisitionsText.length + appended.length ∧
    (∀ i, (numberLines 1 (textRequisitionList appended)).get? i =
      ((textRequisitionList appended).get? i).map (fun l => Nat.repr (1 + i) ++ ". " ++ l)) ∧
    wrapNumbered (textRequisitionList appended) 1 =
      String.intercalate "\n" (numberLines 1 (textRequisitionList appended)) := by
  refine ⟨rfl, ?_, fun i => numberLines_get? 1 (textRequisitionList appended) i, rfl⟩
  unfold textRequisitionList
  rw [safeLines_of_nonblank appended hN]
  simp

/-- Witness for C7: two appended notes give the contiguous list `1..5`. -/
theorem requisition_numbering_contiguous_witness :
    (textRequisitionList ["One PIN", "Writs clear"]).length =
      baseRequisitionsText.length + 2 ∧
    (numberLines 1 (textRequisitionList ["One PIN", "Writs clear"])).get? 4 =
      ((textRequisitionList ["One PIN", "Writs clear"]).get? 4).map
        (fun l => Nat.repr 5 ++ ". " ++ l) :=
  ⟨(requisition_numbering_contiguous true true sampleTx none "2025-10-12"
      ["One PIN", "Writs clear"] (by decide)).2.1,
   (requisition_numbering_contiguous false true sampleTx none "2025-10-12"
      ["One PIN", "Writs clear"] (by decide)).2.2.1 4⟩

/-- An APS payload whose extraction succeeded (used by witnesses). -/
def sampleAps : APSData :=
  { purchaser_names := ["Jane Roe"]
    vendor_names := ["John Doe"]
    property_address := some "123 Main St, Toronto"
    purchase_price := some 800000
    deposit_amount := some 40000
    completion_date := some "2025-12-01"
    requisition_date := some "2025-11-10"
    chattels_included := ["Fridge"]
    fixtures_excluded := []
    rental_items := ["Hot water tank"]
    hst_included := some true
    commission_percentage := none
    closing_adjustments := []
    conditions := []
    irrevocability_date := none }

/-- C1 counterexample: after all bounded retries of the post-extraction
transaction update fail, the re-fetched record still shows the old state
(`workflow_status = TRANSACTION_CREATED`, not the intended
`CLIENT_INTAKE_READY`), yet the executor reports success with the
verified-after-transient-error flag, because its read-back only checks that
the row could be re-fetched. -/
theorem retry_verify_counterexample :
    (extractApsTxUpdate sampleAps
        (some ⟨some "jane@example.com", none, none, none⟩)).workflow_status =
      "CLIENT_INTAKE_READY" ∧
    updateTransactionWithRetry
        [some "fetch failed", some "fetch failed", some "fetch failed"]
        (some ⟨"TRANSACTION_CREATED", none, none, false⟩) none =
      ⟨true, true, none⟩ ∧
    ("TRANSACTION_CREATED" : String) ≠ "CLIENT_INTAKE_READY" := by
  refine ⟨rfl, rfl, by decide⟩

/-- A transaction that has been explicitly CLOSED. -/
def closedTx : Tx :=
  { sampleTx with
    id := "tx-closed"
    file_number := "AIC-2025-000777"
    status := "CLOSED"
    workflow_status := "CLOSED"
    client_email := some "jane@example.com" }

/-- A store holding only the CLOSED transaction. -/
def closedStore : Store :=
  { transactions := [closedTx], inbox := [], approval_links := [],
    email_outbox := [], sent := [] }

/-- An inbound title-search email whose subject carries the CLOSED
transaction's file number. -/
def titleEmailPayload : InboundPayload :=
  { providerMessageId := some "msg-0001"
    subject := "Searches - AIC-2025-000777"
    toEmail := "inbound@firm.example"
    fromEmail := "lawyer@example.com"
    bodyHtml := ""
    bodyText := "Title search results: one PIN, writs clear." }

/-- A fully successful inbound environment for that email. -/
def inboundEnvOk : InboundEnv :=
  { fileNumber := some "AIC-2025-000777"
    derivedLawyerEmail := some "lawyer@example.com"
    titlePinCount := some 1
    titleWritsClear := some true
    titleMortgagesPresent := some false
    titleEasementsNoted := some false
    titleTaxArrearsNoted := some false
    titleNotes := ["One PIN", "Writs clear"]
    lawyerAdditions := []
    lawyerFlags := []
    nowIso := "2025-10-12T12:00:00.000Z"
    newEmailId := 1
    insertErr := none
    stepAErr := none
    stepBErr := none }

/-- C2 counterexample: processing a matched inbound email against a CLOSED
transaction succeeds and moves the transaction to TITLE_SEARCH_RECEIVED — the
handler has no CLOSED guard, so CLOSED is not terminal under automation. -/
theorem closed_not_terminal_counterexample :
    closedTx.workflow_status = "CLOSED" ∧
    (processInboundEmail closedStore titleEmailPayload inboundEnvOk).2 =
      ⟨true, "Inbound email processed"⟩ ∧
    (findTx (processInboundEmail closedStore titleEmailPayload inboundEnvOk).1
        "tx-closed").map (·.workflow_status) = some "TITLE_SEARCH_RECEIVED" := by
  refine ⟨rfl, ?_, ?_⟩ <;> rfl

/-- C2 amended: the automation run never alters a transaction whose status is
not TITLE_SEARCH_RECEIVED — in particular a CLOSED transaction is a success
no-op there — and the post-extraction update never writes CLOSED; but
inbound-email processing applies its writes to the matched transaction
regardless of its stored status, so it can move a CLOSED transaction to
TITLE_SEARCH_RECEIVED (see the counterexample). -/
theorem closed_guard_amended
    (tx : Tx) (h : tx.workflow_status = "CLOSED")
    (st : Store) (txId : String) (env : AutomationEnv)
    (hfind : findTx st txId = some tx)
    (aps : APSData) (row : Option TxSummaryRow) (t : Tx) :
    shouldGenerate tx = false ∧
    automationsRun st txId env = (st, ⟨true, "No automation needed"⟩) ∧
    (applyExtractTxUpdate (extractApsTxUpdate aps row) t).workflow_status ≠ "CLOSED" := by
  have hsg : shouldGenerate tx = false := by
    unfold shouldGenerate
    rw [h]
    rfl
  refine ⟨hsg, ?_, ?_⟩
  · unfold automationsRun
    rw [hfind]
    simp [hsg]
  · show (if jsTruthy (row.bind (·.client_email)) then "CLIENT_INTAKE_READY"
      else "APS_EXTRACTED_AWAITING_EMAIL") ≠ "CLOSED"
    split <;> decide

/-- A fully configured automation environment with all writes succeeding. -/
def sampleAutomationEnv : AutomationEnv :=
  { profile := none
    todayStr := "2025-10-12"
    nowIso := "2025-10-12T12:00:00.000Z"
    emailConfigOk := true
    baseUrl := "https://app.example"
    token := "raw-token"
    tokenHash := "token-hash"
    linkId := 1
    outboxId := 1
    expiresAt := 1760400000000
    draftSaveErr := none
    sendErr := none }

/-- Witness for C2's amended theorem: the automation run on the CLOSED
transaction is a success no-op. -/
theorem closed_guard_amended_witness :
    automationsRun closedStore "tx-closed" sampleAutomationEnv =
      (closedStore, ⟨true, "No automation needed"⟩) :=
  (closed_guard_amended closedTx rfl closedStore "tx-closed" sampleAutomationEnv
      rfl sampleAps none sampleTx).2.1

/-- C4: on successful APS extraction the persisted workflow status becomes
CLIENT_INTAKE_READY when the transaction already has a (truthy) client email
and APS_EXTRACTED_AWAITING_EMAIL otherwise; and for a transaction in the
no-client-email state with an extracted APS document the derived checklist
has aps_extracted = DONE, email = PENDING and intake = BLOCKED. -/
theorem extraction_status_and_checklist :
    (∀ (aps : APSData) (row : Option TxSummaryRow) (t : Tx),
      (applyExtractTxUpdate (extractApsTxUpdate aps row) t).workflow_status =
        if jsTruthy (row.bind (·.client_email)) then "CLIENT_INTAKE_READY"
        else "APS_EXTRACTED_AWAITING_EMAIL") ∧
    (∀ (tx : Tx) (docs : List Doc),
      tx.workflow_status = "APS_EXTRACTED_AWAITING_EMAIL" →
      jsTruthy tx.client_email = false →
      jsTruthy tx.client_intake_completed_at = false →
      tx.client_intake_data = none →
      (∃ d ∈ docs, d.type = "APS" ∧ (d.status = "EXTRACTED" ∨ d.extracted_json.isSome = true)) →
      (deriveChecklist tx docs).get? 2 =
          some ⟨"aps_extracted", "APS extracted", .DONE, none⟩ ∧
      (deriveChecklist tx docs).get? 3 =
          some ⟨"email", "Client email on file", .PENDING, none⟩ ∧
      (deriveChecklist tx docs).get? 4 =
          some ⟨"intake", "Client intake completed", .BLOCKED,
                some "Add client email to send intake"⟩) := by
  constructor
  · intro aps row t
    rfl
  · intro tx docs _hws hMail hCompl hData hex
    obtain ⟨d, hd, hAps, hExt⟩ := hex
    have hmem : d ∈ docs.filter (fun d => d.type == "APS") := by
      refine List.mem_filter.mpr ⟨hd, ?_⟩
      simp [hAps]
    have hup : 0 < (docs.filter (fun d => d.type == "APS")).length :=
      List.length_pos.mpr (List.ne_nil_of_mem hmem)
    have hext : (docs.filter (fun d => d.type == "APS")).any
        (fun d => d.status == "EXTRACTED" || d.extracted_json.isSome) = true := by
      refine List.any_eq_true.mpr ⟨d, hmem, ?_⟩
      rcases hExt with h | h <;> simp [h]
    unfold deriveChecklist
    simp only [hMail, hCompl, hData, hext, hup]
    simp

/-- Witness for C4: a concrete no-client-email transaction with one extracted
APS document. -/
theorem extraction_status_and_checklist_witness :
    (applyExtractTxUpdate (extractApsTxUpdate sampleAps none) sampleTx).workflow_status =
      "APS_EXTRACTED_AWAITING_EMAIL" ∧
    (deriveChecklist
        { sampleTx with workflow_status := "APS_EXTRACTED_AWAITING_EMAIL" }
        [⟨"doc-1", some "tx-1", "APS", "EXTRACTED", some "https://x/storage/v1/object/public/documents/p.pdf",
          some sampleAps⟩]).get? 2 =
      some ⟨"aps_extracted", "APS extracted", .DONE, none⟩ :=
  ⟨extraction_status_and_checklist.1 sampleAps none sampleTx,
   ((extraction_status_and_checklist.2
      { sampleTx with workflow_status := "APS_EXTRACTED_AWAITING_EMAIL" }
      [⟨"doc-1", some "tx-1", "APS", "EXTRACTED", some "https://x/storage/v1/object/public/documents/p.pdf",
        some sampleAps⟩]
      rfl rfl rfl rfl
      ⟨_, List.mem_singleton.mpr rfl, rfl, Or.inl rfl⟩).1)⟩

/-- C5: a duplicate delivery — an inbound email whose provider_message_id
equals that of an already-stored inbox email — is a success no-op: the
handler answers ok "Duplicate ignored", the store is unchanged, exactly one
inbox record for that id remains, and no transaction is mutated. -/
theorem duplicate_inbound_noop
    (st : Store) (p : InboundPayload) (env : InboundEnv) (m : String)
    (hm : p.providerMessageId = some m)
    (hdup : (st.inbox.filter (fun e => e.provider_message_id == some m)).length = 1) :
    processInboundEmail st p env = (st, ⟨true, "Duplicate ignored"⟩) ∧
    ((processInboundEmail st p env).1.inbox.filter
        (fun e => e.provider_message_id == some m)).length = 1 ∧
    (processInboundEmail st p env).1.transactions = st.transactions := by
  have hpos : 0 < (st.inbox.filter (fun e => e.provider_message_id == some m)).length := by
    omega
  obtain ⟨e, he⟩ := List.exists_mem_of_length_pos hpos
  have hany : st.inbox.any (fun e => e.provider_message_id == some m) = true := by
    refine List.any_eq_true.mpr ⟨e, List.mem_of_mem_filter he, ?_⟩
    exact (List.mem_filter.mp he).2
  have hmain : processInboundEmail st p env = (st, ⟨true, "Duplicate ignored"⟩) := by
    unfold processInboundEmail insertInboxEmail
    rw [hm]
    simp only [hany, if_true]
    simp [(by decide :
      strIncludes (jsToLower "duplicate key value violates unique constraint") "duplicate" = true)]
  exact ⟨hmain, by rw [hmain]; exact hdup, by rw [hmain]⟩

/-- A store already holding the inbox record of `titleEmailPayload`. -/
def dupStore : Store :=
  { closedStore with inbox :=
      [⟨1, some "msg-0001", some "inbound@firm.example", some "lawyer@example.com",
        "Searches - AIC-2025-000777", some "Title search results: one PIN, writs clear.",
        none, "PROCESSED", none, some "tx-closed"⟩] }

/-- Witness for C5: redelivering the already-stored message is ignored. -/
theorem duplicate_inbound_noop_witness :
    processInboundEmail dupStore titleEmailPayload inboundEnvOk =
      (dupStore, ⟨true, "Duplicate ignored"⟩) :=
  (duplicate_inbound_noop dupStore titleEmailPayload inboundEnvOk "msg-0001"
      rfl (by decide)).1

/-- C6: consuming the approval link and persisting the approved content form
a single logical unit: when the content save fails the endpoint fails and the
store (hence every link's `used_at`) is unchanged; a successful response
implies the content save succeeded, and only then is the consumed link's
`used_at` stamped. -/
theorem approval_atomic
    (st : Store) (transactionId tokenHash editedHtml : String) (env : ApprovalEnv) :
    (env.contentSaveErr.isSome = true →
      (approvePost st transactionId tokenHash editedHtml env).1 = st ∧
      (approvePost st transactionId tokenHash editedHtml env).2.ok = false) ∧
    ((approvePost st transactionId tokenHash editedHtml env).2.ok = true →
      env.contentSaveErr = none) ∧
    ((approvePost st transactionId tokenHash editedHtml env).2.ok = true →
      ∃ l ∈ (approvePost st transactionId tokenHash editedHtml env).1.approval_links,
        l.used_at = some env.nowIso) := by
  have fail3 : ∀ msg : String,
      approvePost st transactionId tokenHash editedHtml env = (st, ⟨false, msg⟩) →
      (env.contentSaveErr.isSome = true →
        (approvePost st transactionId tokenHash editedHtml env).1 = st ∧
        (approvePost st transactionId tokenHash editedHtml env).2.ok = false) ∧
      ((approvePost st transactionId tokenHash editedHtml env).2.ok = true →
        env.contentSaveErr = none) ∧
      ((approvePost st transactionId tokenHash editedHtml env).2.ok = true →
        ∃ l ∈ (approvePost st transactionId tokenHash editedHtml env).1.approval_links,
          l.used_at = some env.nowIso) := by
    intro msg he
    refine ⟨fun _ => by rw [he]; exact ⟨rfl, rfl⟩, fun h => ?_, fun h => ?_⟩ <;>
      (rw [he] at h; exact absurd h Bool.false_ne_true)
  rcases hl : st.approval_links.find? (fun l =>
      l.transaction_id == transactionId && l.token_hash == tokenHash) with _ | link
  · exact fail3 "Approval link is invalid or already used" (by unfold approvePost; rw [hl])
  · by_cases hu : link.used_at.isSome = true
    · exact fail3 "Approval link is invalid or already used"
        (by unfold approvePost; rw [hl]; simp [hu])
    · by_cases hexp : link.expires_at < env.nowMs
      · exact fail3 "Approval link expired"
          (by unfold approvePost; rw [hl]; simp [hu, hexp])
      · rcases hf : findTx st transactionId with _ | tx
        · exact fail3 "Transaction not found"
            (by unfold approvePost; rw [hl]; simp [hu, hexp, hf])
        · by_cases hv : jsTruthy tx.vendor_solicitor_email = true
          · by_cases hcs : env.contentSaveErr = none
            · have hlinks : (approvePost st transactionId tokenHash editedHtml env).1.approval_links =
                  st.approval_links.map (fun l =>
                    if l.id == link.id then { l with used_at := some env.nowIso } else l) := by
                unfold approvePost; rw [hl]
                simp [hu, hexp, hf, hv, hcs, updateTx, updateLink]
              refine ⟨fun hs => ?_, fun _ => hcs, fun _ => ?_⟩
              · rw [hcs] at hs; simp at hs
              · rw [hlinks]
                refine ⟨{ link with used_at := some env.nowIso }, ?_, rfl⟩
                have := List.mem_map_of_mem (fun l =>
                    if l.id == link.id then { l with used_at := some env.nowIso } else l)
                  (List.mem_of_find?_eq_some hl)
                simpa using this
            · obtain ⟨e, he⟩ := Option.ne_none_iff_exists'.mp hcs
              exact fail3 "Failed to save approval"
                (by unfold approvePost; rw [hl]; simp [hu, hexp, hf, hv, he])
          · exact fail3 "Vendor solicitor email missing on transaction"
              (by unfold approvePost; rw [hl]; simp [hu, hexp, hf, hv])

/-- A valid, unused, unexpired approval link with its transaction. -/
def approvalTx : Tx :=
  { sampleTx with
    id := "tx-appr"
    vendor_solicitor_email := some "vendor@example.com"
    requisition_letter_draft_html := some "<p>draft</p>" }

/-- Store for the approval witness. -/
def approvalStore : Store :=
  { transactions := [approvalTx], inbox := [],
    approval_links := [⟨7, "tx-appr", "token-hash", 2000000, none⟩],
    email_outbox := [], sent := [] }

/-- Approval environment whose content save fails. -/
def approvalEnvFail : ApprovalEnv :=
  { nowIso := "2025-10-12T12:00:00.000Z", nowMs := 1000000, contentSaveErr := some "boom" }

/-- Witness for C6: with a valid link and a failing content save the endpoint
fails and leaves the store (and so the link's null `used_at`) untouched. -/
theorem approval_atomic_witness :
    (approvePost approvalStore "tx-appr" "token-hash" "<p>edited</p>" approvalEnvFail).1 =
      approvalStore ∧
    (approvePost approvalStore "tx-appr" "token-hash" "<p>edited</p>" approvalEnvFail).2.ok =
      false :=
  (approval_atomic approvalStore "tx-appr" "token-hash" "<p>edited</p>" approvalEnvFail).1
    (by decide)

/-- An APS payload whose extracted address contains "apt" only inside the
word "Captain". -/
def captainAps : APSData :=
  { sampleAps with property_address := some "10 Captain Rd, Toronto" }

/-- C9 counterexample: the address "10 Captain Rd, Toronto" contains the
substring "apt" (inside "Captain"), so the claim's trigger list predicts
CONDO with requires_status_cert = true; the code's trigger is "apt " with a
trailing space, so it classifies this address FREEHOLD with
requires_status_cert = false. -/
theorem condo_heuristic_counterexample :
    strIncludes (jsToLower "10 Captain Rd, Toronto") "apt" = true ∧
    looksLikeCondoFromAddress (some "10 Captain Rd, Toronto") = false ∧
    (extractApsTxUpdate captainAps none).property_type = "FREEHOLD" ∧
    (extractApsTxUpdate captainAps none).requires_status_cert = false := by
  refine ⟨by decide, by decide, by decide, by decide⟩

/-- C9 amended: the lower-cased address is classified CONDO (with
requires_status_cert = true) exactly when it contains "condo",
"condominium", "unit ", "suite ", "apt " (trailing space required) or
"apartment", or matches the digits-hyphen pattern `\d+\s*-\s*\d+`
(whitespace allowed around the hyphen); every other address yields FREEHOLD
with requires_status_cert = false; the claim's two example addresses behave
as stated. -/
theorem condo_heuristic_amended
    (aps : APSData) (row : Option TxSummaryRow) (s : String) (hs : s ≠ "") :
    (looksLikeCondoFromAddress (some s) =
      (strIncludes (jsToLower s) "condo" || strIncludes (jsToLower s) "condominium" ||
       strIncludes (jsToLower s) "unit " || strIncludes (jsToLower s) "suite " ||
       strIncludes (jsToLower s) "apt " || strIncludes (jsToLower s) "apartment" ||
       hasUnitDashPattern (jsToLower s))) ∧
    ((extractApsTxUpdate aps row).property_type =
      if looksLikeCondoFromAddress aps.property_address then "CONDO" else "FREEHOLD") ∧
    ((extractApsTxUpdate aps row).requires_status_cert =
      looksLikeCondoFromAddress aps.property_address) ∧
    looksLikeCondoFromAddress (some "123 Main St, Unit 5, Toronto") = true ∧
    looksLikeCondoFromAddress (some "123 Main St, Toronto") = false := by
  refine ⟨?_, rfl, rfl, by decide, by decide⟩
  show (if s = "" then false
    else
      strIncludes (jsToLower s) "condo" || strIncludes (jsToLower s) "condominium" ||
      strIncludes (jsToLower s) "unit " || strIncludes (jsToLower s) "suite " ||
      strIncludes (jsToLower s) "apt " || strIncludes (jsToLower s) "apartment" ||
      hasUnitDashPattern (jsToLower s)) = _
  rw [if_neg hs]

/-- Witness for C9's amended theorem at the claim's condo example address. -/
theorem condo_heuristic_amended_witness :
    looksLikeCondoFromAddress (some "123 Main St, Unit 5, Toronto") = true ∧
    (extractApsTxUpdate sampleAps none).requires_status_cert =
      looksLikeCondoFromAddress sampleAps.property_address :=
  ⟨(condo_heuristic_amended sampleAps none "123 Main St, Unit 5, Toronto"
      (by decide)).2.2.2.1,
   (condo_heuristic_amended sampleAps none "x" (by decide)).2.2.1⟩

/-- `find?` by id over an id-guarded per-row map: the guarded map commutes
with lookup when the update preserves row ids. -/
theorem find?_updateRows (id : String) (f : Tx → Tx) (hf : ∀ t, (f t).id = t.id) :
    ∀ l : List Tx,
      (l.map (fun t => if t.id == id then f t else t)).find? (fun t => t.id == id) =
        (l.find? (fun t => t.id == id)).map f
  | [] => rfl
  | t :: ts => by
    simp only [List.map_cons]
    by_cases h : (t.id == id) = true
    · rw [if_pos h]
      have hft : ((f t).id == id) = true := by rw [hf t]; exact h
      simp [List.find?, hft, h]
    · have h2 : (t.id == id) = false := by
        cases hb : (t.id == id) with
        | true => exact absurd hb h
        | false => rfl
      rw [if_neg h]
      simp only [List.find?, h2]
      exact find?_updateRows id f hf ts

/-- `findTx` after an id-preserving transaction update. -/
theorem findTx_updateTx (st : Store) (id : String) (f : Tx → Tx)
    (hf : ∀ t, (f t).id = t.id) :
    findTx (updateTx st id f) id = (findTx st id).map f := by
  unfold findTx updateTx
  exact find?_updateRows id f hf st.transactions

/-- Looking up the transaction just given a fixed workflow status returns a
row carrying that status. -/
theorem findTx_update_ws (st : Store) (id S : String) (tx1 : Tx)
    (h : findTx (updateTx st id (setWorkflowStatus S)) id = some tx1) :
    tx1.workflow_status = S := by
  rw [findTx_updateTx st id (setWorkflowStatus S) (fun t => rfl)] at h
  cases hfound : findTx st id with
  | none => rw [hfound] at h; exact absurd h (by simp)
  | some t0 =>
    rw [hfound] at h
    have : tx1 = setWorkflowStatus S t0 := by
      simpa using h.symm
    rw [this]
    rfl

/-- A no-op automation run: guard failure returns success with no state
change. -/
theorem automationsRun_noop (st : Store) (txId : String) (env : AutomationEnv) (tx : Tx)
    (hfind : findTx st txId = some tx) (hsg : shouldGenerate tx = false) :
    automationsRun st txId env = (st, ⟨true, "No automation needed"⟩) := by
  unfold automationsRun
  rw [hfind]
  simp [hsg]

/-- C10: when the guard fails — workflow status is not
TITLE_SEARCH_RECEIVED, or title data is absent, or a non-blank draft already
exists — the automation run is a success no-op with the no-automation-needed
message and no persisted change (so no approval link, outbox row or email is
produced); and after a successful generation run the transaction's status is
never TITLE_SEARCH_RECEIVED, so invoking the endpoint again is such a no-op:
running it twice has the same persisted effect as running it once. -/
theorem automation_idempotent
    (st : Store) (txId : String) (env env2 : AutomationEnv) (tx : Tx)
    (hfind : findTx st txId = some tx) :
    (shouldGenerate tx = false →
      automationsRun st txId env = (st, ⟨true, "No automation needed"⟩)) ∧
    (shouldGenerate tx = true → env.draftSaveErr = none →
      ∀ tx1, findTx (automationsRun st txId env).1 txId = some tx1 →
        shouldGenerate tx1 = false ∧
        automationsRun (automationsRun st txId env).1 txId env2 =
          ((automationsRun st txId env).1, ⟨true, "No automation needed"⟩)) := by
  constructor
  · intro hsg
    exact automationsRun_noop st txId env tx hfind hsg
  · intro hsg hsave tx1 hfind1
    have hws : tx1.workflow_status = "REQUISITION_DRAFT_READY_AWAITING_EMAIL_CONFIG" ∨
        tx1.workflow_status = "REQUISITION_DRAFT_READY_AWAITING_LAWYER_EMAIL" ∨
        tx1.workflow_status = "REQUISITION_SENT_TO_LAWYER" ∨
        tx1.workflow_status = "REQUISITION_DRAFT_READY_EMAIL_FAILED" := by
      unfold automationsRun at hfind1
      rw [hfind, hsave] at hfind1
      simp only [hsg, Bool.not_true, Bool.false_eq_true, if_false] at hfind1
      by_cases hc : env.emailConfigOk
      · simp only [hc, Bool.not_true, Bool.false_eq_true, if_false] at hfind1
        by_cases hle : jsTruthy tx.lawyer_email = true
        · simp only [hle, Bool.not_true, Bool.false_eq_true, if_false] at hfind1
          cases hse : env.sendErr with
          | none =>
            rw [hse] at hfind1
            exact Or.inr (Or.inr (Or.inl (findTx_update_ws _ _ _ _ hfind1)))
          | some e =>
            rw [hse] at hfind1
            exact Or.inr (Or.inr (Or.inr (findTx_update_ws _ _ _ _ hfind1)))
        · rw [Bool.not_eq_true] at hle
          simp only [hle, Bool.not_false, eq_self_iff_true, if_true] at hfind1
          exact Or.inr (Or.inl (findTx_update_ws _ _ _ _ hfind1))
      · rw [Bool.not_eq_true] at hc
        simp only [hc, Bool.not_false, eq_self_iff_true, if_true] at hfind1
        exact Or.inl (findTx_update_ws _ _ _ _ hfind1)
    have hsg1 : shouldGenerate tx1 = false := by
      unfold shouldGenerate
      rcases hws with h | h | h | h <;> rw [h] <;> simp
    exact ⟨hsg1, automationsRun_noop _ txId env2 tx1 hfind1 hsg1⟩

/-- A transaction ready for automation: title search received, title data
present, no draft yet. -/
def titleReadyTx : Tx :=
  { sampleTx with
    id := "tx-ready"
    workflow_status := "TITLE_SEARCH_RECEIVED"
    title_search_received_at := some "2025-10-12T12:00:00.000Z"
    title_search_data := some
      { pin_count := some 1
        writs_clear := some true
        mortgages_present := some false
        easements_or_restrictions_noted := some false
        tax_arrears_noted := some false
        notes := ["One PIN", "Writs clear"]
        lawyer_additions := []
        lawyer_flags := []
        source_inbox_email_id := some 1
        source_from_email := some "lawyer@example.com"
        derived_lawyer_email := some "lawyer@example.com"
        updated_at := some "2025-10-12T12:00:00.000Z" } }

/-- A transaction that already carries a generated draft. -/
def draftedTx : Tx :=
  { titleReadyTx with
    id := "tx-drafted"
    workflow_status := "REQUISITION_DRAFT_READY"
    requisition_letter_draft := some "Requisitions: 1. Draft transfer." }

/-- Store with the already-drafted transaction. -/
def draftedStore : Store :=
  { transactions := [draftedTx], inbox := [], approval_links := [],
    email_outbox := [], sent := [] }

/-- Witness for C10: invoking the automation on a transaction that already
has a draft is a success no-op. -/
theorem automation_idempotent_witness :
    automationsRun draftedStore "tx-drafted" sampleAutomationEnv =
      (draftedStore, ⟨true, "No automation needed"⟩) :=
  (automation_idempotent draftedStore "tx-drafted" sampleAutomationEnv
      sampleAutomationEnv draftedTx rfl).1 (by decide)

/-- `findTx` through two chained transaction updates, the first possibly
wrapped in a store that keeps the same transaction rows. -/
theorem findTx_two_updates (st : Store) (txId : String) (tx : Tx) (f g : Tx → Tx)
    (hf : ∀ t, (f t).id = t.id) (hg : ∀ t, (g t).id = t.id)
    (hfind : findTx st txId = some tx)
    (mid : Store) (hmid : mid.transactions = (updateTx st txId f).transactions) :
    findTx (updateTx mid txId g) txId = some (g (f tx)) := by
  rw [findTx_updateTx mid txId g hg]
  have hm : findTx mid txId = findTx (updateTx st txId f) txId := by
    unfold findTx
    rw [hmid]
  rw [hm, findTx_updateTx st txId f hf, hfind]
  rfl

/-- After a successful generation run, the matched transaction carries the
text draft built by `buildRequisitionText` and the HTML draft built by
`buildRequisitionHtml` from the structured inputs, plus one of the four
final workflow statuses. -/
theorem automationsRun_draft (st : Store) (txId : String) (env : AutomationEnv) (tx : Tx)
    (hfind : findTx st txId = some tx) (hgen : shouldGenerate tx = true)
    (hsave : env.draftSaveErr = none) :
    ∃ S : String,
      findTx (automationsRun st txId env).1 txId =
        some (setWorkflowStatus S (draftSaveUpdate
          (buildRequisitionText (some tx) env.profile
            (appendedOf tx.title_search_data) env.todayStr)
          (buildRequisitionHtml (some tx) env.profile tx.title_search_data
            (appendedOf tx.title_search_data))
          env.nowIso tx)) := by
  have hp := List.find?_some
    (show List.find? (fun t => t.id == txId) st.transactions = some tx from hfind)
  have hid : tx.id = txId := eq_of_beq hp
  unfold automationsRun
  rw [hfind, hsave]
  simp only [hgen, Bool.not_true, Bool.false_eq_true, if_false]
  rw [hid]
  by_cases hc : env.emailConfigOk
  · simp only [hc, Bool.not_true, Bool.false_eq_true, if_false]
    by_cases hle : jsTruthy tx.lawyer_email = true
    · simp only [hle, Bool.not_true, Bool.false_eq_true, if_false]
      cases hse : env.sendErr with
      | none =>
        exact ⟨"REQUISITION_SENT_TO_LAWYER",
          findTx_two_updates st txId tx (draftSaveUpdate _ _ _) (setWorkflowStatus _)
            (fun t => rfl) (fun t => rfl) hfind _ rfl⟩
      | some e =>
        exact ⟨"REQUISITION_DRAFT_READY_EMAIL_FAILED",
          findTx_two_updates st txId tx (draftSaveUpdate _ _ _) (setWorkflowStatus _)
            (fun t => rfl) (fun t => rfl) hfind _ rfl⟩
    · rw [Bool.not_eq_true] at hle
      simp only [hle, Bool.not_false, eq_self_iff_true, if_true]
      exact ⟨"REQUISITION_DRAFT_READY_AWAITING_LAWYER_EMAIL",
        findTx_two_updates st txId tx (draftSaveUpdate _ _ _) (setWorkflowStatus _)
          (fun t => rfl) (fun t => rfl) hfind _ rfl⟩
  · rw [Bool.not_eq_true] at hc
    simp only [hc, Bool.not_false, eq_self_iff_true, if_true]
    exact ⟨"REQUISITION_DRAFT_READY_AWAITING_EMAIL_CONFIG",
      findTx_two_updates st txId tx (draftSaveUpdate _ _ _) (setWorkflowStatus _)
        (fun t => rfl) (fun t => rfl) hfind _ rfl⟩

/-- C8: the canonical automation route saves as the plain-text draft the
output of `buildRequisitionText` applied to the structured inputs — the
transaction, the firm profile and the appended structured notes — not a
tag-stripped copy of the HTML; the HTML saved alongside is
`buildRequisitionHtml` of the same structured inputs; and the two renderings
carry the same requisition clause content: equal-length base clause sets
followed by the identical appended clause tail. -/
theorem draft_text_built_independently
    (st : Store) (txId : String) (env : AutomationEnv) (tx : Tx)
    (hfind : findTx st txId = some tx) (hgen : shouldGenerate tx = true)
    (hsave : env.draftSaveErr = none) :
    ((findTx (automationsRun st txId env).1 txId).map (·.requisition_letter_draft) =
      some (some (buildRequisitionText (some tx) env.profile
        (appendedOf tx.title_search_data) env.todayStr))) ∧
    ((findTx (automationsRun st txId env).1 txId).map (·.requisition_letter_draft_html) =
      some (some (buildRequisitionHtml (some tx) env.profile tx.title_search_data
        (appendedOf tx.title_search_data)))) ∧
    (∀ appended : List String,
      baseRequisitionsText.length = baseRequisitionsHtml.length ∧
      (textRequisitionList appended).drop baseRequisitionsText.length =
        (htmlRequisitionList appended).drop baseRequisitionsHtml.length ∧
      (textRequisitionList appended).length = (htmlRequisitionList appended).length) := by
  obtain ⟨S, hS⟩ := automationsRun_draft st txId env tx hfind hgen hsave
  refine ⟨by rw [hS]; rfl, by rw [hS]; rfl, ?_⟩
  intro appended
  refine ⟨?_, ?_, ?_⟩
  · rfl
  · unfold textRequisitionList htmlRequisitionList
    rw [List.drop_left, List.drop_left]
  · unfold textRequisitionList htmlRequisitionList
    simp [baseRequisitionsText, baseRequisitionsHtml]

/-- Store holding the automation-ready transaction. -/
def titleReadyStore : Store :=
  { transactions := [titleReadyTx], inbox := [], approval_links := [],
    email_outbox := [], sent := [] }

/-- Witness for C8: running the automation on the ready transaction persists
exactly the text-template rendering as the plain-text draft. -/
theorem draft_text_built_independently_witness :
    (findTx (automationsRun titleReadyStore "tx-ready" sampleAutomationEnv).1
        "tx-ready").map (·.requisition_letter_draft) =
      some (some (buildRequisitionText (some titleReadyTx) none
        (appendedOf titleReadyTx.title_search_data) "2025-10-12")) :=
  (draft_text_built_independently titleReadyStore "tx-ready" sampleAutomationEnv
      titleReadyTx rfl (by decide) rfl).1

/-- Updating inbox rows does not affect transaction lookup. -/
theorem findTx_updateInbox (st : Store) (eid : Nat) (f : InboxEmail → InboxEmail)
    (id : String) : findTx (updateInbox st eid f) id = findTx st id := rfl

/-- Replacing the inbox list does not affect transaction lookup. -/
theorem findTx_setInbox (st : Store) (ib : List InboxEmail) (id : String) :
    findTx { st with inbox := ib } id = findTx st id := rfl

/-- Transaction lookup through the handler's step A write. -/
theorem findTx_stepA (st : Store) (id nowIso : String) :
    findTx (updateTx st id (stepAUpdate nowIso)) id =
      (findTx st id).map (stepAUpdate nowIso) :=
  findTx_updateTx st id (stepAUpdate nowIso) (fun _ => rfl)

/-- Transaction lookup through the handler's step B write. -/
theorem findTx_stepB (st : Store) (id : String) (tsd : TitleSearchData) :
    findTx (updateTx st id (stepBUpdate tsd)) id =
      (findTx st id).map (stepBUpdate tsd) :=
  findTx_updateTx st id (stepBUpdate tsd) (fun _ => rfl)

/-- The title-search flow of the inbound handler on a cleanly matched email:
a step write that reports a storage error fails the request immediately with
that step's response and no read-back; after both step writes succeed the
unconditional read-back verification returns plain success (never a verified
flag) exactly when the intended state is present in the re-read record, and
otherwise the fixed verification-failure response. -/
theorem processInbound_title_flow
    (stI : Store) (p : InboundPayload) (envI : InboundEnv) (m fn : String) (tx0 : Tx)
    (hpm : p.providerMessageId = some m)
    (hnodup : stI.inbox.any (fun e => e.provider_message_id == some m) = false)
    (hins : envI.insertErr = none)
    (hfn : envI.fileNumber = some fn)
    (hmatch : stI.transactions.find? (fun t => t.file_number == fn) = some tx0)
    (hbyid : findTx stI tx0.id = some tx0)
    (hdet : detectIncomingDocs p.subject p.bodyText = [])
    (hderiv : envI.derivedLawyerEmail = none) :
    (∀ msg, envI.stepAErr = some msg →
      (processInboundEmail stI p envI).2 =
        ⟨false, "Matched email but failed to update transaction (step A)"⟩) ∧
    (∀ msg, envI.stepAErr = none → envI.stepBErr = some msg →
      (processInboundEmail stI p envI).2 =
        ⟨false, "Matched email but failed to update transaction (step B)"⟩) ∧
    (envI.stepAErr = none → envI.stepBErr = none → envI.nowIso ≠ "" →
      (processInboundEmail stI p envI).2 = ⟨true, "Inbound email processed"⟩ ∧
      (findTx (processInboundEmail stI p envI).1 tx0.id).map
          (fun t => (t.title_search_received_at, t.workflow_status,
            t.title_search_data.isSome)) =
        some (some envI.nowIso, "TITLE_SEARCH_RECEIVED", true)) ∧
    (envI.stepAErr = none → envI.stepBErr = none → envI.nowIso = "" →
      (processInboundEmail stI p envI).2 =
        ⟨false, "Inbound matched but verification failed (possible transient DB write issue)"⟩) := by
  unfold processInboundEmail insertInboxEmail
  simp only [hpm, hnodup, hins, hfn, hmatch, hdet, hderiv, Bool.false_eq_true, if_false,
    List.length_nil, lt_self_iff_false]
  refine ⟨?_, ?_, ?_, ?_⟩
  · intro msg hA
    rw [hA]
  · intro msg hA hB
    rw [hA, hB]
  · intro hA hB hnow
    have hjs : jsTruthy (some envI.nowIso) = true := by
      simp [jsTruthy, hnow]
    rw [hA, hB]
    simp only [findTx_stepB, findTx_stepA, findTx_updateInbox, findTx_setInbox, hbyid,
      Option.map_some', stepAUpdate, stepBUpdate, hjs, Option.isSome_some,
      Bool.and_self, Bool.and_true, Bool.true_and, beq_self_eq_true, Bool.not_true,
      Bool.false_eq_true, if_false]
    exact ⟨trivial, trivial⟩
  · intro hA hB hnow
    rw [hA, hB, hnow]
    simp only [findTx_stepB, findTx_stepA, findTx_updateInbox, findTx_setInbox, hbyid,
      Option.map_some', stepAUpdate, stepBUpdate, Option.isSome_some,
      Bool.and_self, Bool.and_true, Bool.true_and, beq_self_eq_true]
    simp [jsTruthy]

/-- C1 amended: after exhausted retries the document-save and
transaction-update executors re-fetch the record and return success with the
verified-after-transient-error flag exactly when their read-back predicate
holds — the extracted state being present for the document save, but merely
that the record could be re-fetched for the transaction update — and
otherwise fail carrying the last error; the intake submission behaves
likewise on a save error with its completed-non-empty-intake predicate. The
title-search save does not follow this pattern: a step write that reports a
storage error fails immediately with that step's response and no re-fetch,
and the read-back verification runs only after both step writes succeed,
answering plain success (no verified flag) when the intended state is
present in the re-read record and otherwise the fixed verification-failure
response rather than the last error. -/
theorem retry_verify_readback
    (attempts : List (Option String)) (lastErr : Option String)
    (h : runRetries attempts = some lastErr)
    (docRow : Option DocVerifyRow) (txRow : Option TxVerifyRow)
    (intakeRow : Option IntakeVerifyRow) (vErr : Option String) (saveErr : String)
    (stI : Store) (p : InboundPayload) (envI : InboundEnv) (m fn : String) (tx0 : Tx)
    (hpm : p.providerMessageId = some m)
    (hnodup : stI.inbox.any (fun e => e.provider_message_id == some m) = false)
    (hins : envI.insertErr = none)
    (hfn : envI.fileNumber = some fn)
    (hmatch : stI.transactions.find? (fun t => t.file_number == fn) = some tx0)
    (hbyid : findTx stI tx0.id = some tx0)
    (hdet : detectIncomingDocs p.subject p.bodyText = [])
    (hderiv : envI.derivedLawyerEmail = none) :
    (updateDocumentWithRetry attempts docRow vErr = ⟨true, true, none⟩ ↔
      ((match docRow with
        | some v => v.status == "EXTRACTED" && v.extracted_json.isSome
        | none => false) && vErr.isNone) = true) ∧
    (((match docRow with
        | some v => v.status == "EXTRACTED" && v.extracted_json.isSome
        | none => false) && vErr.isNone) = false →
      updateDocumentWithRetry attempts docRow vErr =
        ⟨false, false, some (jsOrStr lastErr (jsOrStr vErr "Unknown error"))⟩) ∧
    (updateTransactionWithRetry attempts txRow vErr = ⟨true, true, none⟩ ↔
      (txRow.isSome && vErr.isNone) = true) ∧
    ((txRow.isSome && vErr.isNone) = false →
      updateTransactionWithRetry attempts txRow vErr =
        ⟨false, false, some (jsOrStr lastErr (jsOrStr vErr "Unknown error"))⟩) ∧
    (intakeSubmit (some saveErr) vErr intakeRow =
        ⟨true, "Intake saved (verified after transient error)"⟩ ↔
      (vErr.isNone && looksLikeIntakeSaved intakeRow) = true) ∧
    ((vErr.isNone && looksLikeIntakeSaved intakeRow) = false →
      intakeSubmit (some saveErr) vErr intakeRow = ⟨false, "Failed to save intake"⟩) ∧
    (∀ msg, envI.stepAErr = some msg →
      (processInboundEmail stI p envI).2 =
        ⟨false, "Matched email but failed to update transaction (step A)"⟩) ∧
    (∀ msg, envI.stepAErr = none → envI.stepBErr = some msg →
      (processInboundEmail stI p envI).2 =
        ⟨false, "Matched email but failed to update transaction (step B)"⟩) ∧
    (envI.stepAErr = none → envI.stepBErr = none → envI.nowIso ≠ "" →
      (processInboundEmail stI p envI).2 = ⟨true, "Inbound email processed"⟩ ∧
      (findTx (processInboundEmail stI p envI).1 tx0.id).map
          (fun t => (t.title_search_received_at, t.workflow_status,
            t.title_search_data.isSome)) =
        some (some envI.nowIso, "TITLE_SEARCH_RECEIVED", true)) ∧
    (envI.stepAErr = none → envI.stepBErr = none → envI.nowIso = "" →
      (processInboundEmail stI p envI).2 =
        ⟨false, "Inbound matched but verification failed (possible transient DB write issue)"⟩) := by
  have flow := processInbound_title_flow stI p envI m fn tx0 hpm hnodup hins hfn hmatch
    hbyid hdet hderiv
  unfold updateDocumentWithRetry updateTransactionWithRetry intakeSubmit
  rw [h]
  refine ⟨?_, ?_, ?_, ?_, ?_, ?_, flow.1, flow.2.1, flow.2.2.1, flow.2.2.2⟩
  · cases hb : ((match docRow with
      | some v => v.status == "EXTRACTED" && v.extracted_json.isSome
      | none => false) && vErr.isNone) <;> simp [hb]
  · intro hb; simp [hb]
  · cases hb : (txRow.isSome && vErr.isNone) <;> simp [hb]
  · intro hb; simp [hb]
  · cases hb : (vErr.isNone && looksLikeIntakeSaved intakeRow) <;> simp [hb]
  · intro hb; simp [hb]

/-- The successful inbound environment with no derivable lawyer email. -/
def inboundEnvNoDeriv : InboundEnv :=
  { inboundEnvOk with derivedLawyerEmail := none }

/-- Witness for C1's amended theorem: a failed document write verified by a
successful extracted-state read-back; a failed transaction write whose
re-fetch also fails, surfacing the last write error; and a cleanly matched
inbound email whose two step writes succeed, whose post-write verification
then answers plain success. -/
theorem retry_verify_readback_witness :
    updateDocumentWithRetry [some "boom"] (some ⟨"EXTRACTED", some sampleAps⟩) none =
      ⟨true, true, none⟩ ∧
    updateTransactionWithRetry [some "boom"] none none =
      ⟨false, false, some "boom"⟩ ∧
    (processInboundEmail closedStore titleEmailPayload inboundEnvNoDeriv).2 =
      ⟨true, "Inbound email processed"⟩ :=
  ⟨(retry_verify_readback [some "boom"] (some "boom") (by decide)
      (some ⟨"EXTRACTED", some sampleAps⟩) none none none "x"
      closedStore titleEmailPayload inboundEnvNoDeriv "msg-0001" "AIC-2025-000777" closedTx
      rfl rfl rfl rfl rfl rfl rfl rfl).1.mpr (by decide),
   (retry_verify_readback [some "boom"] (some "boom") (by decide)
      none none none none "x"
      closedStore titleEmailPayload inboundEnvNoDeriv "msg-0001" "AIC-2025-000777" closedTx
      rfl rfl rfl rfl rfl rfl rfl rfl).2.2.2.1 (by decide),
   ((retry_verify_readback [some "boom"] (some "boom") (by decide)
      none none none none "x"
      closedStore titleEmailPayload inboundEnvNoDeriv "msg-0001" "AIC-2025-000777" closedTx
      rfl rfl rfl rfl rfl rfl rfl rfl).2.2.2.2.2.2.2.2.1 rfl rfl (by decide)).1⟩

end ClosingAgent
